import Mathlib

/-
Verification of the cache-aside retrieval protocol of the file-caching
service (package `handlers`, file `internal/handlers/handlers.go`), with the
mock port backends of `internal/mocks` used for end-to-end scenarios.

The Go handler is shallowly embedded as pure Lean functions:
  * `getFile`  embeds `FileHandler.GetFile` — the HTTP response it writes and
    the port calls it makes (cache get, storage get, scheduled write-back)
    as an explicit effect record;
  * `health`   embeds `FileHandler.Health`;
  * `writeFileResponse`, `writeJSON`, `isNotFoundError`, `filepathExt`
    embed the helpers of the same names (`filepath.Ext` from the Go
    standard library is re-implemented faithfully for the '/' separator);
  * `MockCache` / `MockStorage` embed the mocks of `internal/mocks`,
    with explicit state passing in place of Go mutation.
Bytes (`[]byte`) are `List UInt8`; Go `error` values are `Option String` /
`Except String` carrying the error text (the handler classifies storage
errors by substring inspection of that text, which the embedding mirrors).
-/

namespace FileCachingService

/-- Go `[]byte`. -/
abbrev Bytes := List UInt8

/-- Substring occurrence on character lists: `needle` occurs somewhere in
the second list (used to embed Go `strings.Contains`). -/
def listContainsSub (needle : List Char) : List Char → Bool
  | [] => needle.isEmpty
  | c :: rest => needle.isPrefixOf (c :: rest) || listContainsSub needle rest

/-- Go `strings.Contains(s, sub)`. -/
def stringContains (s sub : String) : Bool :=
  listContainsSub sub.data s.data

/-- Embeds `isNotFoundError` (handlers.go): substring match on the error
text against "NoSuchKey" and "not found". -/
def isNotFoundError (err : String) : Bool :=
  stringContains err "NoSuchKey" || stringContains err "not found"

/-- Helper for `filepathExt`: walk the filename from its last character
towards the front (first argument is the reversed character list), carrying
the characters already passed in original order; stop at the first '.'
(returning it with the suffix) or at a path separator. -/
def filepathExtAux : List Char → List Char → String
  | [], _ => ""
  | c :: rest, acc =>
    if c = '/' then ""
    else if c = '.' then String.mk ('.' :: acc)
    else filepathExtAux rest (c :: acc)

/-- Embeds Go `filepath.Ext`: the suffix of the final path element starting
at its final dot, or "" when there is no dot. -/
def filepathExt (path : String) : String :=
  filepathExtAux path.data.reverse []

/-- The JSON envelope written by `writeJSON` (the Go `Response` struct);
`data` holds the string-to-string map used by the health endpoint, empty
when the Go code omits the field. -/
structure JsonEnvelope where
  success : Bool
  message : String
  data : List (String × String)
deriving DecidableEq, Repr

/-- An HTTP response as the handler shapes it: status code, the two headers
the handler sets, and either a JSON envelope or a raw byte body. -/
inductive HttpBody
  | json (env : JsonEnvelope)
  | raw (bytes : Bytes)
deriving DecidableEq, Repr

structure HttpResponse where
  status : Nat
  contentType : String
  contentDisposition : Option String
  body : HttpBody
deriving DecidableEq, Repr

/-- Embeds `writeJSON` (handlers.go): JSON content type, the given status,
the envelope as body. -/
def writeJSON (status : Nat) (env : JsonEnvelope) : HttpResponse :=
  { status := status
    contentType := "application/json"
    contentDisposition := none
    body := .json env }

/-- Embeds `writeFileResponse` (handlers.go), parameterised by the
extension-to-MIME mapping `mimeTypeByExtension` consulted by Go's
`mime.TypeByExtension` (an empty string means "no known type"). -/
def writeFileResponse (mimeTypeByExtension : String → String)
    (filename : String) (data : Bytes) : HttpResponse :=
  let ct := mimeTypeByExtension (filepathExt filename)
  let contentType := if ct = "" then "application/octet-stream" else ct
  { status := 200
    contentType := contentType
    contentDisposition := some ("inline; filename=\"" ++ filename ++ "\"")
    body := .raw data }

/-- The triple returned by the Cache port's `Get`: `(data, found, err)`. -/
structure CacheGetResult where
  data : Bytes
  found : Bool
  err : Option String
deriving DecidableEq, Repr

/-- The port calls one `GetFile` request performs: whether the cache `Get`
ran, whether the storage `GetObject` ran, and the `(key, bytes)` pair of the
asynchronous cache `Set` it spawned, if any. -/
structure GetFileEffects where
  cacheGetCalled : Bool
  storageGetCalled : Bool
  writeBack : Option (String × Bytes)
deriving DecidableEq, Repr

/-- One `GetFile` request, with the environment's answers pre-resolved:
`cacheGet` is what `h.cache.Get` would return (`none` when no cache is
configured, i.e. `h.cache == nil`); `storageResult` is what
`h.storage.GetObject` would return; `deadlineExceeded` is whether
`ctx.Err() == context.DeadlineExceeded` holds at the storage error check. -/
structure GetFileInput where
  filename : String
  cacheGet : Option CacheGetResult
  storageResult : Except String Bytes
  deadlineExceeded : Bool

/-- The storage-fallback tail of `GetFile` (handlers.go lines 129-181):
classify a `GetObject` failure as 504 / 404 / 500 in that order, or on
success answer 200 and, when a cache is configured, spawn the write-back. -/
def storagePhase (mimeTypeByExtension : String → String) (filename : String)
    (storageResult : Except String Bytes) (deadlineExceeded : Bool)
    (cacheConfigured : Bool) : HttpResponse × GetFileEffects :=
  match storageResult with
  | .error e =>
    if deadlineExceeded then
      (writeJSON 504 ⟨false, "Request timeout", []⟩,
       ⟨cacheConfigured, true, none⟩)
    else if isNotFoundError e then
      (writeJSON 404 ⟨false, "File not found", []⟩,
       ⟨cacheConfigured, true, none⟩)
    else
      (writeJSON 500 ⟨false, "Failed to retrieve file", []⟩,
       ⟨cacheConfigured, true, none⟩)
  | .ok data =>
    (writeFileResponse mimeTypeByExtension filename data,
     ⟨cacheConfigured, true,
      if cacheConfigured then some (filename, data) else none⟩)

/-- Embeds `FileHandler.GetFile` (handlers.go lines 92-181). Empty filename
is rejected with 400 before any port call; with a configured cache, a `Get`
whose `found` is true is served from the cache (a non-nil `Get` error is
only logged and does not alter control flow, exactly as in the source);
otherwise the storage fallback of `storagePhase` runs. -/
def getFile (mimeTypeByExtension : String → String) (inp : GetFileInput) :
    HttpResponse × GetFileEffects :=
  if inp.filename = "" then
    (writeJSON 400 ⟨false, "filename is required", []⟩, ⟨false, false, none⟩)
  else
    match inp.cacheGet with
    | some r =>
      if r.found then
        (writeFileResponse mimeTypeByExtension inp.filename r.data,
         ⟨true, false, none⟩)
      else
        storagePhase mimeTypeByExtension inp.filename inp.storageResult
          inp.deadlineExceeded true
    | none =>
      storagePhase mimeTypeByExtension inp.filename inp.storageResult
        inp.deadlineExceeded false

/-- One health query, with the environment's answers pre-resolved:
`cachePing` is `none` when no cache is configured, otherwise the error (if
any) of `h.cache.Ping`; `storageHealth` is the error (if any) of
`h.storage.HealthCheck`. -/
structure HealthInput where
  cachePing : Option (Option String)
  storageHealth : Option String

/-- The value the health handler stores under the "redis" key. -/
def redisField (cachePing : Option (Option String)) : String :=
  match cachePing with
  | some (some e) => "unhealthy: " ++ e
  | some none => "healthy"
  | none => "disabled"

/-- Embeds `FileHandler.Health` (handlers.go lines 41-78): cache state only
fills the "redis" field; a storage `HealthCheck` failure alone flips the
overall status to unhealthy and 503. -/
def health (inp : HealthInput) : HttpResponse :=
  match inp.storageHealth with
  | some e =>
    writeJSON 503 ⟨false, "Service is unhealthy",
      [("status", "unhealthy"), ("redis", redisField inp.cachePing),
       ("r2", "unhealthy: " ++ e)]⟩
  | none =>
    writeJSON 200 ⟨true, "Service is healthy",
      [("status", "healthy"), ("redis", redisField inp.cachePing),
       ("r2", "healthy")]⟩

/-- Embeds `MockCache` (internal/mocks): backing map, injectable `Get`/`Set`
errors, and the recorded calls; Go mutation becomes explicit state passing. -/
structure MockCache where
  data : String → Option Bytes
  GetError : Option String
  SetError : Option String
  GetCalls : List String
  SetCalls : List (String × Bytes)

/-- Embeds `MockCache.Get`: record the call; a configured `GetError` is
returned with `(nil, false)`; otherwise answer from the map, `found` being
membership. -/
def MockCache.Get (m : MockCache) (key : String) :
    MockCache × CacheGetResult :=
  let m1 := { m with GetCalls := m.GetCalls ++ [key] }
  match m.GetError with
  | some e => (m1, ⟨[], false, some e⟩)
  | none =>
    match m.data key with
    | some d => (m1, ⟨d, true, none⟩)
    | none => (m1, ⟨[], false, none⟩)

/-- Embeds `MockCache.Set`: record the call; a configured `SetError` is
returned without storing; otherwise store the bytes under the key. -/
def MockCache.Set (m : MockCache) (key : String) (d : Bytes) :
    MockCache × Option String :=
  let m1 := { m with SetCalls := m.SetCalls ++ [(key, d)] }
  match m.SetError with
  | some e => (m1, some e)
  | none =>
    ({ m1 with data := fun k => if k = key then some d else m.data k }, none)

/-- The error text of `mocks.ErrObjectNotFound`. -/
def ErrObjectNotFound : String := "NoSuchKey: The specified key does not exist"

/-- Embeds `MockStorage` (internal/mocks), restricted to the fields the read
path exercises. -/
structure MockStorage where
  objects : String → Option Bytes
  GetError : Option String
  GetCalls : List String

/-- Embeds `MockStorage.GetObject`: record the call; a configured `GetError`
is returned; an absent key yields `ErrObjectNotFound`; a present key yields
its bytes (present-but-empty keys succeed). -/
def MockStorage.GetObject (m : MockStorage) (key : String) :
    MockStorage × Except String Bytes :=
  let m1 := { m with GetCalls := m.GetCalls ++ [key] }
  match m.GetError with
  | some e => (m1, .error e)
  | none =>
    match m.objects key with
    | some d => (m1, .ok d)
    | none => (m1, .error ErrObjectNotFound)

/-- A handler wired to the mock ports: `cache` is `none` when the handler is
built with a nil cache. -/
structure SysState where
  cache : Option MockCache
  storage : MockStorage

/-- One `GetFile` request against the mock ports: resolve the cache and
storage answers from the mock states, run the handler, and commit the state
update of exactly the port calls the handler made. -/
def sysGetFile (mimeTypeByExtension : String → String) (s : SysState)
    (deadlineExceeded : Bool) (filename : String) :
    HttpResponse × GetFileEffects × SysState :=
  let cacheStep := s.cache.map (fun mc => mc.Get filename)
  let storageStep := s.storage.GetObject filename
  let out := getFile mimeTypeByExtension
    ⟨filename, Option.map Prod.snd cacheStep, storageStep.snd,
     deadlineExceeded⟩
  let cache2 :=
    if out.snd.cacheGetCalled then Option.map Prod.fst cacheStep else s.cache
  let storage2 :=
    if out.snd.storageGetCalled then storageStep.fst else s.storage
  (out.fst, out.snd, ⟨cache2, storage2⟩)

/-- Completion of the asynchronous write-back goroutine spawned by a
request: perform the recorded `cache.Set` (its error, as in the source, is
only logged). -/
def applyWriteBack (s : SysState) (eff : GetFileEffects) : SysState :=
  match eff.writeBack, s.cache with
  | some (k, d), some mc => { s with cache := some (mc.Set k d).fst }
  | _, _ => s

/-- Modelled from the spec: the extension-to-MIME table behind Go's
`mime.TypeByExtension` lives in the Go standard library and the host's mime
database, not in this repository. The spec calls it "a standard
extension→MIME mapping" and its concrete scenario assigns `.txt` the type
`text/plain`; unknown or absent extensions yield the empty string (so the
handler falls back to `application/octet-stream`). -/
def stdMimeByExtension (ext : String) : String :=
  if ext = ".txt" then "text/plain"
  else if ext = ".html" then "text/html; charset=utf-8"
  else if ext = ".json" then "application/json"
  else if ext = ".png" then "image/png"
  else if ext = ".pdf" then "application/pdf"
  else ""

/-- The `success` flag of a JSON-envelope response. -/
def envSuccess (resp : HttpResponse) : Option Bool :=
  match resp.body with
  | .json env => some env.success
  | .raw _ => none

/-- Lookup in the `data` map of a JSON-envelope response. -/
def dataLookup (resp : HttpResponse) (key : String) : Option String :=
  match resp.body with
  | .json env => env.data.lookup key
  | .raw _ => none

theorem storagePhase_effects (mime : String → String) (f : String)
    (sr : Except String Bytes) (dl cc : Bool) :
    (storagePhase mime f sr dl cc).snd.cacheGetCalled = cc ∧
    (storagePhase mime f sr dl cc).snd.storageGetCalled = true := by
  cases sr with
  | error e =>
    simp only [storagePhase]
    split_ifs <;> simp
  | ok d => simp [storagePhase]

theorem getFile_miss_eq_storagePhase (mime : String → String)
    (inp : GetFileInput) (hn : inp.filename ≠ "")
    (hm : ∀ r, inp.cacheGet = some r → r.found = false) :
    getFile mime inp =
      storagePhase mime inp.filename inp.storageResult inp.deadlineExceeded
        inp.cacheGet.isSome := by
  cases hcg : inp.cacheGet with
  | none => simp [getFile, hn, hcg]
  | some r =>
    have hr := hm r hcg
    simp [getFile, hn, hcg, hr]

/-- C1: whenever the configured cache's `Get` reports `found = true`,
`GetFile` answers 200 with exactly the cached bytes and the storage port's
`GetObject` is never invoked for that request. -/
theorem getFile_cache_hit_no_storage (mime : String → String)
    (inp : GetFileInput) (r : CacheGetResult)
    (hn : inp.filename ≠ "") (hc : inp.cacheGet = some r)
    (hf : r.found = true) :
    (getFile mime inp).fst = writeFileResponse mime inp.filename r.data ∧
    (getFile mime inp).fst.status = 200 ∧
    (getFile mime inp).fst.body = HttpBody.raw r.data ∧
    (getFile mime inp).snd.storageGetCalled = false := by
  simp [getFile, hn, hc, hf, writeFileResponse]

theorem getFile_cache_hit_no_storage_witness :
    (getFile (fun _ => "") ⟨"a", some ⟨[1], true, none⟩,
        Except.error "boom", false⟩).fst =
      writeFileResponse (fun _ => "") "a" [1] ∧
    (getFile (fun _ => "") ⟨"a", some ⟨[1], true, none⟩,
        Except.error "boom", false⟩).fst.status = 200 ∧
    (getFile (fun _ => "") ⟨"a", some ⟨[1], true, none⟩,
        Except.error "boom", false⟩).fst.body = HttpBody.raw [1] ∧
    (getFile (fun _ => "") ⟨"a", some ⟨[1], true, none⟩,
        Except.error "boom", false⟩).snd.storageGetCalled = false :=
  getFile_cache_hit_no_storage (fun _ => "")
    ⟨"a", some ⟨[1], true, none⟩, Except.error "boom", false⟩
    ⟨[1], true, none⟩ (by decide) rfl rfl

/-- C2: a non-nil cache `Get` error (which the cache port contract pairs
with `found = false`) is only logged: the request proceeds exactly as a
clean cache miss — storage is still queried and the whole outcome (response
and effects) equals that of an error-free miss, so the cache fault is never
surfaced to the client. -/
theorem getFile_cache_error_is_miss (mime : String → String)
    (inp : GetFileInput) (d : Bytes) (e : String)
    (hn : inp.filename ≠ "") (hc : inp.cacheGet = some ⟨d, false, some e⟩) :
    getFile mime inp =
      getFile mime { inp with cacheGet := some ⟨[], false, none⟩ } ∧
    (getFile mime inp).snd.storageGetCalled = true := by
  constructor
  · simp [getFile, hn, hc]
  · rw [getFile_miss_eq_storagePhase mime inp hn]
    · exact (storagePhase_effects _ _ _ _ _).2
    · intro r hr
      rw [hc] at hr
      cases hr
      rfl

theorem getFile_cache_error_is_miss_witness :
    (getFile (fun _ => "") ⟨"a", some ⟨[], false, some "cache down"⟩,
        Except.ok [2], false⟩ =
      getFile (fun _ => "") ⟨"a", some ⟨[], false, none⟩,
        Except.ok [2], false⟩) ∧
    (getFile (fun _ => "") ⟨"a", some ⟨[], false, some "cache down"⟩,
        Except.ok [2], false⟩).snd.storageGetCalled = true :=
  getFile_cache_error_is_miss (fun _ => "")
    ⟨"a", some ⟨[], false, some "cache down"⟩, Except.ok [2], false⟩
    [] "cache down" (by decide) rfl

/-- C3: a storage `GetObject` failure is classified with this precedence:
an elapsed request deadline gives 504 "Request timeout"; otherwise an error
matching the not-found classifier gives 404 "File not found"; any other
fault gives 500 "Failed to retrieve file". -/
theorem getFile_storage_error_classification (mime : String → String)
    (inp : GetFileInput) (e : String)
    (hn : inp.filename ≠ "")
    (hm : ∀ r, inp.cacheGet = some r → r.found = false)
    (hs : inp.storageResult = Except.error e) :
    (inp.deadlineExceeded = true →
      (getFile mime inp).fst =
        writeJSON 504 ⟨false, "Request timeout", []⟩) ∧
    (inp.deadlineExceeded = false → isNotFoundError e = true →
      (getFile mime inp).fst =
        writeJSON 404 ⟨false, "File not found", []⟩) ∧
    (inp.deadlineExceeded = false → isNotFoundError e = false →
      (getFile mime inp).fst =
        writeJSON 500 ⟨false, "Failed to retrieve file", []⟩) := by
  rw [getFile_miss_eq_storagePhase mime inp hn hm, hs]
  refine ⟨?_, ?_, ?_⟩
  · intro hdl
    simp [storagePhase, hdl]
  · intro hdl hnf
    simp [storagePhase, hdl, hnf]
  · intro hdl hnf
    simp [storagePhase, hdl, hnf]

theorem getFile_storage_error_classification_witness :
    (false = true →
      (getFile (fun _ => "") ⟨"missing.txt", none,
          Except.error ErrObjectNotFound, false⟩).fst =
        writeJSON 504 ⟨false, "Request timeout", []⟩) ∧
    (false = false → isNotFoundError ErrObjectNotFound = true →
      (getFile (fun _ => "") ⟨"missing.txt", none,
          Except.error ErrObjectNotFound, false⟩).fst =
        writeJSON 404 ⟨false, "File not found", []⟩) ∧
    (false = false → isNotFoundError ErrObjectNotFound = false →
      (getFile (fun _ => "") ⟨"missing.txt", none,
          Except.error ErrObjectNotFound, false⟩).fst =
        writeJSON 500 ⟨false, "Failed to retrieve file", []⟩) :=
  getFile_storage_error_classification (fun _ => "")
    ⟨"missing.txt", none, Except.error ErrObjectNotFound, false⟩
    ErrObjectNotFound (by decide) (fun r hr => by cases hr) rfl

/-- C4: the health verdict is decided by storage alone: a failing storage
health check gives 503 with `success = false`, the failure reason in the
"r2" field and overall status "unhealthy", whatever the cache state; a
healthy storage gives 200 with `success = true` even when the cache ping
fails or the cache is absent. -/
theorem health_storage_decides (inp : HealthInput) (e : String) :
    (inp.storageHealth = some e →
      (health inp).status = 503 ∧
      envSuccess (health inp) = some false ∧
      dataLookup (health inp) "status" = some "unhealthy" ∧
      dataLookup (health inp) "r2" = some ("unhealthy: " ++ e)) ∧
    (inp.storageHealth = none →
      (health inp).status = 200 ∧
      envSuccess (health inp) = some true ∧
      dataLookup (health inp) "status" = some "healthy") := by
  constructor
  · intro h
    simp [health, h, envSuccess, dataLookup, writeJSON, List.lookup]
  · intro h
    simp [health, h, envSuccess, dataLookup, writeJSON, List.lookup]

theorem health_storage_decides_witness :
    ((⟨some (some "ping failed"), some "bucket gone"⟩ :
        HealthInput).storageHealth = some "bucket gone" →
      (health ⟨some (some "ping failed"), some "bucket gone"⟩).status = 503 ∧
      envSuccess (health ⟨some (some "ping failed"), some "bucket gone"⟩) =
        some false ∧
      dataLookup (health ⟨some (some "ping failed"), some "bucket gone"⟩)
        "status" = some "unhealthy" ∧
      dataLookup (health ⟨some (some "ping failed"), some "bucket gone"⟩)
        "r2" = some ("unhealthy: " ++ "bucket gone")) ∧
    ((⟨some (some "ping failed"), some "bucket gone"⟩ :
        HealthInput).storageHealth = none →
      (health ⟨some (some "ping failed"), some "bucket gone"⟩).status = 200 ∧
      envSuccess (health ⟨some (some "ping failed"), some "bucket gone"⟩) =
        some true ∧
      dataLookup (health ⟨some (some "ping failed"), some "bucket gone"⟩)
        "status" = some "healthy") :=
  health_storage_decides ⟨some (some "ping failed"), some "bucket gone"⟩
    "bucket gone"

/-- C5: with no cache configured (`h.cache == nil`), a non-empty retrieval
request performs no cache call and goes straight to storage with no
write-back, and the health endpoint reports the "redis" field as
"disabled" with an overall status identical to the one a healthy
configured cache would give. -/
theorem disabled_cache_transparency (mime : String → String)
    (inp : GetFileInput) (hin : HealthInput)
    (hn : inp.filename ≠ "") (hc : inp.cacheGet = none)
    (hp : hin.cachePing = none) :
    (getFile mime inp).snd.cacheGetCalled = false ∧
    (getFile mime inp).snd.storageGetCalled = true ∧
    (getFile mime inp).snd.writeBack = none ∧
    dataLookup (health hin) "redis" = some "disabled" ∧
    (health hin).status = (health ⟨some none, hin.storageHealth⟩).status := by
  have hred := getFile_miss_eq_storagePhase mime inp hn
    (fun r hr => by rw [hc] at hr; cases hr)
  rw [hc] at hred
  refine ⟨?_, ?_, ?_, ?_, ?_⟩
  · rw [hred]
    exact (storagePhase_effects _ _ _ _ _).1
  · rw [hred]
    exact (storagePhase_effects _ _ _ _ _).2
  · rw [hred]
    cases inp.storageResult with
    | error e =>
      simp only [storagePhase]
      split_ifs <;> rfl
    | ok d => rfl
  · cases hs : hin.storageHealth <;>
      simp [health, hp, hs, dataLookup, redisField, writeJSON, List.lookup]
  · cases hs : hin.storageHealth <;> simp [health, hp, hs, writeJSON]

theorem disabled_cache_transparency_witness :
    (getFile (fun _ => "") ⟨"a.txt", none, Except.ok [7], false⟩).snd.cacheGetCalled
        = false ∧
    (getFile (fun _ => "") ⟨"a.txt", none, Except.ok [7], false⟩).snd.storageGetCalled
        = true ∧
    (getFile (fun _ => "") ⟨"a.txt", none, Except.ok [7], false⟩).snd.writeBack
        = none ∧
    dataLookup (health ⟨none, none⟩) "redis" = some "disabled" ∧
    (health ⟨none, none⟩).status = (health ⟨some none, (⟨none, none⟩ :
        HealthInput).storageHealth⟩).status :=
  disabled_cache_transparency (fun _ => "")
    ⟨"a.txt", none, Except.ok [7], false⟩ ⟨none, none⟩ (by decide) rfl rfl

/-- C8: a successful file response is shaped purely from the filename and
the bytes: status 200, the raw bytes as body, a Content-Type looked up from
the filename's extension in the MIME mapping with
"application/octet-stream" as the default for an unknown or absent
extension, and a Content-Disposition of exactly
inline; filename="{name}". -/
theorem writeFileResponse_shaping (mime : String → String)
    (filename : String) (data : Bytes) :
    writeFileResponse mime filename data =
      { status := 200
        contentType :=
          if mime (filepathExt filename) = "" then "application/octet-stream"
          else mime (filepathExt filename)
        contentDisposition :=
          some ("inline; filename=\"" ++ filename ++ "\"")
        body := HttpBody.raw data } := by
  simp [writeFileResponse]

/-- C9: the empty filename is answered 400 with no port effect at all —
no cache call, no storage call, no write-back. -/
theorem getFile_empty_filename (mime : String → String)
    (c : Option CacheGetResult) (st : Except String Bytes) (dl : Bool) :
    getFile mime ⟨"", c, st, dl⟩ =
      (writeJSON 400 ⟨false, "filename is required", []⟩,
       ⟨false, false, none⟩) := by
  simp [getFile]

/-- C6: a cache-miss request whose storage fetch yields bytes `b` for key
`k` schedules a write-back of exactly `(k, b)`; once that write-back has
been applied, repeating the request is a cache hit that returns the
byte-identical file response without calling storage. -/
theorem writeback_then_cache_hit (mime : String → String)
    (mc : MockCache) (st : MockStorage) (k : String) (b : Bytes)
    (hk : k ≠ "") (hge : mc.GetError = none) (hmiss : mc.data k = none)
    (hset : mc.SetError = none) (hsge : st.GetError = none)
    (hobj : st.objects k = some b) :
    (sysGetFile mime ⟨some mc, st⟩ false k).snd.fst.writeBack = some (k, b) ∧
    (sysGetFile mime
        (applyWriteBack (sysGetFile mime ⟨some mc, st⟩ false k).snd.snd
          (sysGetFile mime ⟨some mc, st⟩ false k).snd.fst)
        false k).fst = writeFileResponse mime k b ∧
    (sysGetFile mime
        (applyWriteBack (sysGetFile mime ⟨some mc, st⟩ false k).snd.snd
          (sysGetFile mime ⟨some mc, st⟩ false k).snd.fst)
        false k).snd.fst.storageGetCalled = false := by
  simp [sysGetFile, MockCache.Get, MockCache.Set, MockStorage.GetObject,
        applyWriteBack, getFile, storagePhase, hk, hge, hmiss, hset, hsge,
        hobj]

theorem writeback_then_cache_hit_witness :
    (sysGetFile (fun _ => "")
        ⟨some ⟨fun _ => none, none, none, [], []⟩,
         ⟨fun _ => some [9], none, []⟩⟩ false "k.bin").snd.fst.writeBack =
      some ("k.bin", [9]) ∧
    (sysGetFile (fun _ => "")
        (applyWriteBack
          (sysGetFile (fun _ => "")
            ⟨some ⟨fun _ => none, none, none, [], []⟩,
             ⟨fun _ => some [9], none, []⟩⟩ false "k.bin").snd.snd
          (sysGetFile (fun _ => "")
            ⟨some ⟨fun _ => none, none, none, [], []⟩,
             ⟨fun _ => some [9], none, []⟩⟩ false "k.bin").snd.fst)
        false "k.bin").fst = writeFileResponse (fun _ => "") "k.bin" [9] ∧
    (sysGetFile (fun _ => "")
        (applyWriteBack
          (sysGetFile (fun _ => "")
            ⟨some ⟨fun _ => none, none, none, [], []⟩,
             ⟨fun _ => some [9], none, []⟩⟩ false "k.bin").snd.snd
          (sysGetFile (fun _ => "")
            ⟨some ⟨fun _ => none, none, none, [], []⟩,
             ⟨fun _ => some [9], none, []⟩⟩ false "k.bin").snd.fst)
        false "k.bin").snd.fst.storageGetCalled = false :=
  writeback_then_cache_hit (fun _ => "")
    ⟨fun _ => none, none, none, [], []⟩ ⟨fun _ => some [9], none, []⟩
    "k.bin" [9] (by decide) rfl rfl rfl rfl rfl

/-- The bytes of "hello". -/
def helloBytes : Bytes := [104, 101, 108, 108, 111]

/-- The concrete scenario of the spec: an empty mock cache next to a mock
storage holding exactly one object, "a.txt" with content "hello". -/
def scenarioState : SysState :=
  { cache := some
      { data := fun _ => none, GetError := none, SetError := none
        GetCalls := [], SetCalls := [] }
    storage :=
      { objects := fun k => if k = "a.txt" then some helloBytes else none
        GetError := none, GetCalls := [] } }

/-- C7: against an empty cache and a storage holding only
"a.txt" ↦ "hello", the first GET /files/a.txt answers 200 with body
"hello" and Content-Type "text/plain" after exactly one storage call, and
after the write-back settles the identical request again answers 200
"hello" from the cache alone — the storage mock's GetCalls remain at the
single first call. -/
theorem concrete_cached_scenario :
    (sysGetFile stdMimeByExtension scenarioState false "a.txt").fst.status
        = 200 ∧
    (sysGetFile stdMimeByExtension scenarioState false "a.txt").fst.body
        = HttpBody.raw helloBytes ∧
    (sysGetFile stdMimeByExtension scenarioState false "a.txt").fst.contentType
        = "text/plain" ∧
    (sysGetFile stdMimeByExtension scenarioState false
        "a.txt").snd.snd.storage.GetCalls = ["a.txt"] ∧
    (sysGetFile stdMimeByExtension
        (applyWriteBack
          (sysGetFile stdMimeByExtension scenarioState false "a.txt").snd.snd
          (sysGetFile stdMimeByExtension scenarioState false "a.txt").snd.fst)
        false "a.txt").fst.status = 200 ∧
    (sysGetFile stdMimeByExtension
        (applyWriteBack
          (sysGetFile stdMimeByExtension scenarioState false "a.txt").snd.snd
          (sysGetFile stdMimeByExtension scenarioState false "a.txt").snd.fst)
        false "a.txt").fst.body = HttpBody.raw helloBytes ∧
    (sysGetFile stdMimeByExtension
        (applyWriteBack
          (sysGetFile stdMimeByExtension scenarioState false "a.txt").snd.snd
          (sysGetFile stdMimeByExtension scenarioState false "a.txt").snd.fst)
        false "a.txt").snd.fst.storageGetCalled = false ∧
    (sysGetFile stdMimeByExtension
        (applyWriteBack
          (sysGetFile stdMimeByExtension scenarioState false "a.txt").snd.snd
          (sysGetFile stdMimeByExtension scenarioState false "a.txt").snd.fst)
        false "a.txt").snd.snd.storage.GetCalls = ["a.txt"] := by
  decide

/-- C10: a key present in storage with zero-length content is served as 200
with an empty raw body and still written back to the cache — presence of
the key, not non-emptiness of its bytes, decides the not-found outcome. -/
theorem empty_object_is_served (mime : String → String)
    (mc : MockCache) (st : MockStorage) (k : String) (dl : Bool)
    (hk : k ≠ "") (hge : mc.GetError = none) (hmiss : mc.data k = none)
    (hsge : st.GetError = none) (hobj : st.objects k = some []) :
    (sysGetFile mime ⟨some mc, st⟩ dl k).fst.status = 200 ∧
    (sysGetFile mime ⟨some mc, st⟩ dl k).fst.body = HttpBody.raw [] ∧
    (sysGetFile mime ⟨some mc, st⟩ dl k).snd.fst.writeBack = some (k, []) := by
  simp [sysGetFile, MockCache.Get, MockStorage.GetObject, getFile,
        storagePhase, writeFileResponse, hk, hge, hmiss, hsge, hobj]

theorem empty_object_is_served_witness :
    (sysGetFile (fun _ => "")
        ⟨some ⟨fun _ => none, none, none, [], []⟩,
         ⟨fun _ => some [], none, []⟩⟩ false "empty.bin").fst.status = 200 ∧
    (sysGetFile (fun _ => "")
        ⟨some ⟨fun _ => none, none, none, [], []⟩,
         ⟨fun _ => some [], none, []⟩⟩ false "empty.bin").fst.body
        = HttpBody.raw [] ∧
    (sysGetFile (fun _ => "")
        ⟨some ⟨fun _ => none, none, none, [], []⟩,
         ⟨fun _ => some [], none, []⟩⟩ false
        "empty.bin").snd.fst.writeBack = some ("empty.bin", []) :=
  empty_object_is_served (fun _ => "")
    ⟨fun _ => none, none, none, [], []⟩ ⟨fun _ => some [], none, []⟩
    "empty.bin" false (by decide) rfl rfl rfl rfl

end FileCachingService
